import Mathlib

/-
  Shallow embedding of the TL100/TL200 tlrandom driver core (src/tlrandomfix.c).

  Conventions used throughout:
  * C fixed-width unsigned integers are modelled as `Nat`, with an explicit
    `% 2 ^ 32` wherever 32-bit overflow can occur (SHA-256 word arithmetic,
    the block serial number).  The field types of the health-test records
    live in the missing tlrandom.h header; they are modelled as `Nat`.
  * Return codes are `Int`: 0 is SUCCESS, -1 is -EPERM, -14 is -EFAULT,
    -61 is -ENODATA, -110 is -ETIMEDOUT.
  * Buffers are `List Nat` of byte values (or of 32-bit words where the C
    code works through a `uint32_t *` view; this is stated at each site).
  * Compile-time constants that live in the missing tlrandom.h header
    (buffer sizes, MIN_INPUT_NUM_WORDS, numConsecFailThreshold,
    USB_READ_MAX_RETRY_CNT) are kept as explicit parameters, so every
    theorem quantifies over them unless the claim pins a value.
  * The USB channel, wall clock and shutdown flag observations are modelled
    as explicit oracles (lists of per-iteration outcomes), making the
    stateful C loops pure structural recursions.
-/

/-! ## Constants fixed by the source or, where noted, modelled from the spec -/

/-- WORD_SIZE_BYTES from the missing header. Modelled from the spec: the
conditioning engine operates on 32-bit words. -/
def WORD_SIZE_BYTES : Nat := 4

/-- Modelled from the spec: `maxDataBlockSizeWords` is defined in the missing
tlrandom.h header; the spec fixes the hash to process 512-bit (16-word)
chunks. -/
def maxDataBlockSizeWords : Nat := 16

/-- Modelled from the spec: the `ROTR(n, x)` 32-bit rotate-right macro of the
missing tlrandom.h header (FIPS-180-4 notation, used by the sigma and sum
functions of the source). -/
def ROTR (n x : Nat) : Nat := ((x >>> n) ||| (x <<< (32 - n))) % 2 ^ 32

/-- Modelled from the spec: the FIPS-180-4 round-constant table `k[0..63]`,
defined in the missing tlrandom.h header (decimal rendering of the standard
hexadecimal constants 0x428a2f98, 0x71374491, ..., 0xc67178f2). -/
def sha256_k : List Nat :=
  [1116352408, 1899447441, 3049323471, 3921009573, 961987163, 1508970993,
   2453635748, 2870763221, 3624381080, 310598401, 607225278, 1426881987,
   1925078388, 2162078206, 2614888103, 3248222580, 3835390401, 4022224774,
   264347078, 604807628, 770255983, 1249150122, 1555081692, 1996064986,
   2554220882, 2821834349, 2952996808, 3210313671, 3336571891, 3584528711,
   113926993, 338241895, 666307205, 773529912, 1294757372, 1396182291,
   1695183700, 1986661051, 2177026350, 2456956037, 2730485921, 2820302411,
   3259730800, 3345764771, 3516065817, 3600352804, 4094571909, 275423344,
   430227734, 506948616, 659060556, 883997877, 958139571, 1322822218,
   1537002063, 1747873779, 1955562222, 2024104815, 2227730452, 2361852424,
   2428436474, 2756734187, 3204031479, 3329325298]

/-! ## Conditioning engine (sha256_* functions of the source) -/

/-- The eight running-digest words h0..h7 of the source's `struct` sd. -/
structure Sha256H where
  h0 : Nat
  h1 : Nat
  h2 : Nat
  h3 : Nat
  h4 : Nat
  h5 : Nat
  h6 : Nat
  h7 : Nat
deriving Repr, DecidableEq

/-- The working variables a..h of `sha256_hashCurrentBlock`. -/
structure Sha256Vars where
  a : Nat
  b : Nat
  c : Nat
  d : Nat
  e : Nat
  f : Nat
  g : Nat
  h : Nat
deriving Repr, DecidableEq

/-- sha256_initialize: reset H0..H7 to the fixed initial constants. -/
def sha256_initialize : Sha256H :=
  { h0 := 1779033703, h1 := 3144134277, h2 := 1013904242,
    h3 := 2773480762, h4 := 1359893119, h5 := 2600822924,
    h6 := 528734635, h7 := 1541459225 }

/-- sha256_ch, FIPS formula (4.2); `~x` on uint32_t is xor with 0xffffffff. -/
def sha256_ch (x y z : Nat) : Nat := (x &&& y) ^^^ ((x ^^^ 0xffffffff) &&& z)

/-- sha256_maj, FIPS formula (4.3). -/
def sha256_maj (x y z : Nat) : Nat := (x &&& y) ^^^ (x &&& z) ^^^ (y &&& z)

/-- sha256_sum0, FIPS formula (4.4). -/
def sha256_sum0 (x : Nat) : Nat := ROTR 2 x ^^^ ROTR 13 x ^^^ ROTR 22 x

/-- sha256_sum1, FIPS formula (4.5). -/
def sha256_sum1 (x : Nat) : Nat := ROTR 6 x ^^^ ROTR 11 x ^^^ ROTR 25 x

/-- sha256_sigma0, FIPS formula (4.6). -/
def sha256_sigma0 (x : Nat) : Nat := ROTR 7 x ^^^ ROTR 18 x ^^^ (x >>> 3)

/-- sha256_sigma1, FIPS formula (4.7). -/
def sha256_sigma1 (x : Nat) : Nat := ROTR 17 x ^^^ ROTR 19 x ^^^ (x >>> 10)

/-- The message-schedule loop of `sha256_hashCurrentBlock` ("process elements
16...63"): extend w by one word per step, `n` steps remaining.  uint32_t
addition wraps, hence the `% 2 ^ 32`. -/
def sha256_schedule_go : Nat → List Nat → List Nat
  | 0, w => w
  | n + 1, w =>
    sha256_schedule_go n
      (w ++ [(sha256_sigma1 (w.getD (w.length - 2) 0) + w.getD (w.length - 7) 0 +
              sha256_sigma0 (w.getD (w.length - 15) 0) + w.getD (w.length - 16) 0) % 2 ^ 32])

/-- w[0..63] for one 512-bit block: w[0..15] are the data words (the source
copies exactly 16 words into sd.w; shorter input is zero-padded here only to
keep the function total), w[16..63] from the schedule recurrence. -/
def sha256_schedule (block : List Nat) : List Nat :=
  sha256_schedule_go 48 ((block ++ List.replicate maxDataBlockSizeWords 0).take maxDataBlockSizeWords)

/-- One iteration of the "process elements 0...63" loop of
`sha256_hashCurrentBlock`. -/
def sha256_round (kt wt : Nat) (v : Sha256Vars) : Sha256Vars :=
  let tmp1 := (v.h + sha256_sum1 v.e + sha256_ch v.e v.f v.g + kt + wt) % 2 ^ 32
  let tmp2 := (sha256_sum0 v.a + sha256_maj v.a v.b v.c) % 2 ^ 32
  { a := (tmp1 + tmp2) % 2 ^ 32, b := v.a, c := v.b, d := v.c,
    e := (v.d + tmp1) % 2 ^ 32, f := v.e, g := v.f, h := v.g }

/-- The 64 compression rounds; `n` rounds remaining, `t` the current index. -/
def sha256_rounds_go (w : List Nat) : Nat → Nat → Sha256Vars → Sha256Vars
  | 0, _, v => v
  | n + 1, t, v => sha256_rounds_go w n (t + 1) (sha256_round (sha256_k.getD t 0) (w.getD t 0) v)

/-- sha256_hashCurrentBlock: schedule, 64 rounds, then add the working
variables into the running digest (uint32_t wrap-around). -/
def sha256_hashCurrentBlock (H : Sha256H) (block : List Nat) : Sha256H :=
  let w := sha256_schedule block
  let v := sha256_rounds_go w 64 0
    { a := H.h0, b := H.h1, c := H.h2, d := H.h3, e := H.h4, f := H.h5, g := H.h6, h := H.h7 }
  { h0 := (H.h0 + v.a) % 2 ^ 32, h1 := (H.h1 + v.b) % 2 ^ 32, h2 := (H.h2 + v.c) % 2 ^ 32,
    h3 := (H.h3 + v.d) % 2 ^ 32, h4 := (H.h4 + v.e) % 2 ^ 32, h5 := (H.h5 + v.f) % 2 ^ 32,
    h6 := (H.h6 + v.g) % 2 ^ 32, h7 := (H.h7 + v.h) % 2 ^ 32 }

/-- The "process complete blocks" loop of `sha256_generateHash`:
`n` complete 16-word blocks remaining, `blockNum` the current block index. -/
def sha256_completeBlocks_go (src : List Nat) : Nat → Nat → Sha256H → Sha256H
  | 0, _, H => H
  | n + 1, blockNum, H =>
    sha256_completeBlocks_go src n (blockNum + 1)
      (sha256_hashCurrentBlock H
        ((List.range maxDataBlockSizeWords).map
          (fun u => src.getD (blockNum * maxDataBlockSizeWords + u) 0)))

/-- sha256_generateHash: hash `src.length` 32-bit words and return the 8-word
digest, mirroring the source's padding branches exactly.
* All complete 16-word blocks are compressed first.
* If the remainder is at most 13 words, the padding marker 0x80000000, the
  zero fill and the 32-bit message bit-length fit in one final block
  (`ui8 < maxDataBlockSizeWords - 1` branch).
* A 14- or 15-word remainder gets the marker appended in its own block (the
  source's write of a zero to sd.w[16] in the 15-word case lands in the
  schedule area and is immediately recomputed, which the `take` reproduces),
  and a further marker-free length-only block follows.
* With remainder 0, a marker-carrying length-only block follows the data.
The source returns -1 for non-positive `len` without writing `dst`; its
callers always pass at least 2 words, so that guard is not modelled. -/
def sha256_generateHash (src : List Nat) : List Nat :=
  let len := src.length
  let initialMessageSize := len * 8 * 4
  let numCompleteDataBlocks := len / maxDataBlockSizeWords
  let reminder := len % maxDataBlockSizeWords
  let H1 := sha256_completeBlocks_go src numCompleteDataBlocks 0 sha256_initialize
  let srcOffset := numCompleteDataBlocks * maxDataBlockSizeWords
  let dataPart := (List.range reminder).map (fun u => src.getD (srcOffset + u) 0)
  let step2 :=
    if 0 < reminder then
      if reminder + 1 < maxDataBlockSizeWords - 1 then
        (sha256_hashCurrentBlock H1
          (dataPart ++ [0x80000000] ++ List.replicate (maxDataBlockSizeWords - 3 - reminder) 0 ++
            [0, initialMessageSize]), false)
      else
        (sha256_hashCurrentBlock H1 ((dataPart ++ [0x80000000, 0]).take maxDataBlockSizeWords), true)
    else (H1, true)
  let Hf :=
    if step2.2 then
      sha256_hashCurrentBlock step2.1
        (((if reminder = 0 then [0x80000000] else []) ++
          List.replicate maxDataBlockSizeWords 0).take (maxDataBlockSizeWords - 2) ++
          [0, initialMessageSize])
    else step2.1
  [Hf.h0, Hf.h1, Hf.h2, Hf.h3, Hf.h4, Hf.h5, Hf.h6, Hf.h7]

/-- sha256_initializeSerialNumber: `sd.blockSerialNumber = initValue`, the
parameter being a uint32_t. -/
def sha256_initializeSerialNumber (initValue : Nat) : Nat := initValue % 2 ^ 32

/-- sha256_stampSerialNumber: write the current serial number into word
`MIN_INPUT_NUM_WORDS` of the input block, then post-increment the uint32_t
counter.  Returns the stamped block and the new counter value. -/
def sha256_stampSerialNumber (MIN_INPUT_NUM_WORDS : Nat) (inputBlock : List Nat)
    (blockSerialNumber : Nat) : List Nat × Nat :=
  (inputBlock.set MIN_INPUT_NUM_WORDS blockSerialNumber, (blockSerialNumber + 1) % 2 ^ 32)

/-- The value of sd.blockSerialNumber after initialization with `seed`
followed by `n` stamped sub-blocks.  These are the only two writes to the
counter anywhere in the source, so this function enumerates every value the
counter takes during the process lifetime.  (The serial-update component of
`sha256_stampSerialNumber` does not depend on the block argument.) -/
def serialAfterStamps (seed : Nat) : Nat → Nat
  | 0 => sha256_initializeSerialNumber seed
  | n + 1 => (sha256_stampSerialNumber 0 [] (serialAfterStamps seed n)).2

/-- The hash input of the `n`-th stamped sub-block (counting from module
initialization with `seed`) whose raw entropy words are `rawWords`: the
source fills srcToHash[0..M-1] with raw words and stamps srcToHash[M]. -/
def subBlockHashInput (MIN_INPUT_NUM_WORDS seed n : Nat) (rawWords : List Nat) : List Nat :=
  (sha256_stampSerialNumber MIN_INPUT_NUM_WORDS (rawWords ++ [0]) (serialAfterStamps seed n)).1

/-- sha256_selfTest: hash the fixed test vector (testSeq1, 11 words, defined
in the missing tlrandom.h header and therefore a parameter here) and compare
against the expected vector with `memcmp(results, exptHashSeq1, 8)`.  The
third memcmp argument counts BYTES: 8 bytes are the first two of the eight
32-bit digest words (byte-wise equality of a word prefix is equality of those
words, independently of endianness).  Returns 0 on a match of those 8 bytes. -/
def sha256_selfTest (testSeq1 exptHashSeq1 : List Nat) : Int :=
  if (sha256_generateHash testSeq1).take 2 = exptHashSeq1.take 2 then 0 else 1

/-- The self-test gate at the top of init_tlrandom: when `sha256_selfTest`
returns non-zero the module initialization stops with -EPERM before any
device, buffer or USB setup; otherwise initialization proceeds (0). -/
def init_tlrandom_selfTestGate (testSeq1 exptHashSeq1 : List Nat) : Int :=
  if ¬ sha256_selfTest testSeq1 exptHashSeq1 = 0 then -1 else 0

/-! ## Health Test Harness (rct_* and apt_* functions of the source) -/

/-- The Repetition Count Test record `rct`.  Field types live in the missing
tlrandom.h header and are modelled as `Nat`/`Bool`. -/
structure RctState where
  isInitialized : Bool
  lastSample : Nat
  curRepetitions : Nat
  failureWindow : Nat
  failureCount : Nat
  statusByte : Nat
  signature : Nat
  maxRepetitions : Nat
deriving Repr, DecidableEq

/-- rct_restart: reset the per-cycle counters; statusByte is untouched. -/
def rct_restart (s : RctState) : RctState :=
  { s with isInitialized := false, curRepetitions := 1, failureWindow := 0, failureCount := 0 }

/-- rct_initialize: zero the record, set statusByte = 0, signature = 1,
maxRepetitions = 5, then rct_restart. -/
def rct_initialize : RctState :=
  rct_restart
    { isInitialized := false, lastSample := 0, curRepetitions := 0, failureWindow := 0,
      failureCount := 0, statusByte := 0, signature := 1, maxRepetitions := 5 }

/-- rct_sample, one conditioned byte.  The source's in-place increments
(`rct.curRepetitions++`, `++rct.failureCount`) are written out as `+ 1` on the
pre-state fields, which the assignment order makes equivalent.
`numConsecFailThreshold` is a constant of the missing header, kept as a
parameter. -/
def rct_sample (numConsecFailThreshold : Nat) (s : RctState) (value : Nat) : RctState :=
  if s.isInitialized = false then
    { s with isInitialized := true, lastSample := value }
  else if s.lastSample = value then
    if s.maxRepetitions ≤ s.curRepetitions + 1 then
      if numConsecFailThreshold ≤ s.failureCount + 1 then
        if s.statusByte = 0 then
          { s with curRepetitions := 1, failureCount := s.failureCount + 1,
                   statusByte := s.signature }
        else
          { s with curRepetitions := 1, failureCount := s.failureCount + 1 }
      else
        { s with curRepetitions := 1, failureCount := s.failureCount + 1 }
    else
      { s with curRepetitions := s.curRepetitions + 1 }
  else
    { s with lastSample := value, curRepetitions := 1 }

/-- The Adaptive Proportion Test record `apt`. -/
structure AptState where
  isInitialized : Bool
  firstSample : Nat
  curRepetitions : Nat
  curSamples : Nat
  windowSize : Nat
  cutoffValue : Nat
  cycleFailures : Nat
  statusByte : Nat
  signature : Nat
deriving Repr, DecidableEq

/-- apt_restart_cycle: reset cycleFailures only. -/
def apt_restart_cycle (s : AptState) : AptState := { s with cycleFailures := 0 }

/-- apt_restart: clear isInitialized, then apt_restart_cycle; statusByte is
untouched. -/
def apt_restart (s : AptState) : AptState := apt_restart_cycle { s with isInitialized := false }

/-- apt_initialize: zero the record, set statusByte = 0, signature = 2,
windowSize = 64, cutoffValue = 5, then apt_restart. -/
def apt_initialize : AptState :=
  apt_restart
    { isInitialized := false, firstSample := 0, curRepetitions := 0, curSamples := 0,
      windowSize := 64, cutoffValue := 5, cycleFailures := 0, statusByte := 0, signature := 2 }

/-- apt_sample, one conditioned byte.  Mirrors the source exactly:
the pre-incremented curSamples is compared against windowSize first (clearing
isInitialized arms a window restart on the NEXT sample); then, when the
sample equals firstSample, the pre-incremented curRepetitions is compared
against cutoffValue, and in the source the `else apt_restart_cycle()` is
attached to that INNER comparison, so a repetition that does not exceed the
cutoff resets cycleFailures, while one that does exceed it increments
cycleFailures and leaves curRepetitions unreset. -/
def apt_sample (numConsecFailThreshold : Nat) (s : AptState) (value : Nat) : AptState :=
  if s.isInitialized = false then
    { s with isInitialized := true, firstSample := value, curRepetitions := 0, curSamples := 0 }
  else
    let s1 :=
      if s.windowSize ≤ s.curSamples + 1 then
        { s with curSamples := s.curSamples + 1, isInitialized := false }
      else
        { s with curSamples := s.curSamples + 1 }
    if s1.firstSample = value then
      if s1.cutoffValue < s1.curRepetitions + 1 then
        if numConsecFailThreshold ≤ s1.cycleFailures + 1 then
          if s1.statusByte = 0 then
            { s1 with curRepetitions := s1.curRepetitions + 1,
                      cycleFailures := s1.cycleFailures + 1, statusByte := s1.signature }
          else
            { s1 with curRepetitions := s1.curRepetitions + 1,
                      cycleFailures := s1.cycleFailures + 1 }
        else
          { s1 with curRepetitions := s1.curRepetitions + 1,
                    cycleFailures := s1.cycleFailures + 1 }
      else
        apt_restart_cycle { s1 with curRepetitions := s1.curRepetitions + 1 }
    else s1

/-! ## Transport/Protocol Layer (chip_read_data, snd_rcv_usb_data) -/

/-- One outcome of the `usb_bulk_msg` receive call inside chip_read_data's
do-while loop, as observed by the code:
* `shutdownSeen`: the isShutDown flag was set at the top of the iteration;
* `usbError e`: usb_bulk_msg returned the non-zero code `e`;
* `ok data secsAfter`: a transfer of `data.length` bytes arrived, and the
  coarse wall clock (`get_seconds`) showed `secsAfter` seconds elapsed since
  the call began when the loop condition was evaluated. -/
inductive TransferEvent where
  | shutdownSeen : TransferEvent
  | usbError (e : Int) : TransferEvent
  | ok (data : List Nat) (secsAfter : Nat) : TransferEvent
deriving Repr, DecidableEq

/-- The payload-extraction for-loop of chip_read_data (the body of the
`transferred > 2` branch).  `fuel` bounds the iteration count (the C loop
performs at most `transferred` iterations since `i` increases every time);
`i` is the loop index, `buff` the response accumulator whose length is the
C variable `cnt`.  When `i % bulk_in_size == 0` the source executes `i++;
continue;`, which together with the for-loop increment advances `i` by TWO,
appending nothing; otherwise the byte at offset `i` is appended, and the
loop breaks once `cnt` reaches `length`. -/
def chip_extract_go (size : Nat) (data : List Nat) (transferred length : Nat) :
    Nat → Nat → List Nat → List Nat
  | 0, _, buff => buff
  | fuel + 1, i, buff =>
    if i < transferred then
      if i % size = 0 then
        chip_extract_go size data transferred length fuel (i + 2) buff
      else
        let buff2 := buff ++ [data.getD i 0]
        if length ≤ buff2.length then buff2
        else chip_extract_go size data transferred length fuel (i + 1) buff2
    else buff

/-- The per-transfer accumulation step of chip_read_data: a transfer of 2 or
fewer bytes contributes nothing (`if (transferred > 2)`), a larger one runs
the extraction loop from offset 0. -/
def chip_read_step (size : Nat) (buff : List Nat) (length : Nat) (data : List Nat) : List Nat :=
  if 2 < data.length then
    chip_extract_go size data data.length length data.length 0 buff
  else buff

/-- Modelled from the spec claim wording only, for comparison with
`chip_read_step`: an extraction that strips exactly ONE framing byte at each
offset that is a multiple of the bulk-in packet size and keeps every other
byte (the `length` cap is irrelevant for the inputs compared and omitted). -/
def chip_read_step_oneByteStrip (size : Nat) (buff : List Nat) (_length : Nat)
    (data : List Nat) : List Nat :=
  if 2 < data.length then
    buff ++ ((List.range data.length).filter (fun i => ¬ i % size = 0)).map (fun i => data.getD i 0)
  else buff

/-- chip_read_data: accumulate `length` payload bytes from successive inbound
transfers (given as the oracle list `events`), then report SUCCESS with the
filled buffer, or the error code.  Mirrors the source loop:
* shutdown observed: return -EPERM;
* usb_bulk_msg error: return it;
* transferred > USB_BUFFER_SIZE: return -EFAULT;
* otherwise extract payload, and continue while `cnt < length` and the
  elapsed seconds are below `opTimeoutSecs`; on loop exit, `cnt != length`
  is -ETIMEDOUT.  An exhausted oracle is treated like a loop exit (the
  device never answering corresponds to the clock eventually exceeding the
  timeout). -/
def chip_read_data (size usbBufferSize length opTimeoutSecs : Nat) :
    List TransferEvent → List Nat → Except Int (List Nat)
  | [], buff => if buff.length = length then Except.ok buff else Except.error (-110)
  | TransferEvent.shutdownSeen :: _, _ => Except.error (-1)
  | TransferEvent.usbError e :: _, _ => Except.error e
  | TransferEvent.ok data secsAfter :: rest, buff =>
    if usbBufferSize < data.length then Except.error (-14)
    else
      let buff2 := chip_read_step size buff length data
      if buff2.length < length ∧ secsAfter < opTimeoutSecs then
        chip_read_data size usbBufferSize length opTimeoutSecs rest buff2
      else if ¬ buff2.length = length then Except.error (-110)
      else Except.ok buff2

/-- One attempt of the retry loop of snd_rcv_usb_data, as observed by the
code: either the isShutDown flag was set at the top of the iteration, or the
outbound usb_bulk_msg completed with result `retval` having written
`actualCnt` bytes, after which (when the write was complete) the inbound
transfers of this attempt are `reads`. -/
inductive UsbAttempt where
  | shutdownSeen : UsbAttempt
  | writeResult (retval : Int) (actualCnt : Nat) (reads : List TransferEvent) : UsbAttempt
deriving Repr, DecidableEq

/-- snd_rcv_usb_data: the retry loop, with the USB_READ_MAX_RETRY_CNT budget
of the missing header given by the length of the `attempts` oracle, and the
running C variable `retval` carried explicitly.  Mirrors the source:
* shutdown at the top of an iteration returns -EPERM immediately;
* a complete 3-byte command write is followed by `chip_read_data` for
  `sizeRcv + 1` bytes — the expected payload PLUS one trailing status byte;
* on a successful read, a non-zero trailing byte `rcv[sizeRcv]` sets
  `retval = -EFAULT` but does NOT break, so the exchange is retried;
  a zero trailing byte breaks with retval = SUCCESS;
* a failed read carries its error into `retval` and retries; an incomplete
  write carries the write result and retries;
* when the budget is exhausted (`retry >= USB_READ_MAX_RETRY_CNT`) the
  carried retval is overwritten with -ETIMEDOUT. -/
def snd_rcv_usb_data (size usbBufferSize sizeSnd sizeRcv opTimeoutSecs : Nat) :
    List UsbAttempt → Int → Int
  | [], _ => -110
  | UsbAttempt.shutdownSeen :: _, _ => -1
  | UsbAttempt.writeResult r actualCnt reads :: rest, _retval =>
    if r = 0 ∧ actualCnt = sizeSnd then
      match chip_read_data size usbBufferSize (sizeRcv + 1) opTimeoutSecs reads [] with
      | Except.error e => snd_rcv_usb_data size usbBufferSize sizeSnd sizeRcv opTimeoutSecs rest e
      | Except.ok rcv =>
        if ¬ rcv.getD sizeRcv 0 = 0 then
          snd_rcv_usb_data size usbBufferSize sizeSnd sizeRcv opTimeoutSecs rest (-14)
        else 0
    else snd_rcv_usb_data size usbBufferSize sizeSnd sizeRcv opTimeoutSecs rest r

/-! ## Entropy Buffer Manager and Blocking Read Facade
    (rcv_rnd_bytes, get_entropy_bytes, device_read) -/

/-- The compile-time size and threshold constants of the missing tlrandom.h
header that the buffer manager uses.  `RND_IN_BUFFSIZE` and
`TRND_OUT_BUFFSIZE` are byte counts; `MIN_INPUT_NUM_WORDS` is the raw-word
count of one hash sub-block. -/
structure CoreParams where
  RND_IN_BUFFSIZE : Nat
  TRND_OUT_BUFFSIZE : Nat
  MIN_INPUT_NUM_WORDS : Nat
  numConsecFailThreshold : Nat
deriving Repr, DecidableEq

/-- The process-wide mutable state touched by the refill and read paths: the
lifecycle flags, the conditioned-output buffer `buffTRndOut` (as bytes, the
uint8_t view the sampling loop reads), its consumption cursor
`curTrngOutIdx`, both health-test records, and `sd.blockSerialNumber`.
`buffRndIn` is not carried: it is written only by the transport and consumed
within the same `rcv_rnd_bytes` call, so it appears as the transport
oracle's payload instead. -/
structure DriverState where
  isEntropySrcRdy : Bool
  isShutDown : Bool
  isDeviceOpPending : Bool
  isUsbOpPending : Bool
  curTrngOutIdx : Nat
  buffTRndOut : List Nat
  rct : RctState
  apt : AptState
  blockSerialNumber : Nat
deriving Repr, DecidableEq

/-- The 3-byte device command built by rcv_rnd_bytes: the marker byte 'x'
(0x78) followed by the little-endian 16-bit requested byte count
(`byteCnt` is a uint16_t). -/
def rnd_command (RND_IN_BUFFSIZE : Nat) : List Nat :=
  [0x78, RND_IN_BUFFSIZE % 65536 % 256, RND_IN_BUFFSIZE % 65536 / 256]

/-- Little-endian byte view of a list of 32-bit words: the x86 memory layout
under which the byte-typed sampling loop reads the uint32_t-written
`buffTRndOut`. -/
def wordsToBytesLE : List Nat → List Nat
  | [] => []
  | w :: ws =>
    w % 256 :: w / 256 % 256 :: w / 65536 % 256 :: w / 16777216 % 256 :: wordsToBytesLE ws

/-- The conditioning loop of rcv_rnd_bytes: for `i = 0, M, 2M, ...` while
`i < W` (`W` = RND_IN_BUFFSIZE / WORD_SIZE_BYTES raw words), copy the
sub-block rawWords[i..i+M-1] into srcToHash, stamp the serial number into
srcToHash[M], hash the M+1 words, and append the 8-word digest (the source
advances dst by OUT_NUM_WORDS = 8, the digest size).  `fuel` bounds the
iteration count; `acc` accumulates the digest words in order.  Returns the
conditioned words and the final serial counter. -/
def conditionLoop (M W : Nat) (rawWords : List Nat) :
    Nat → Nat → Nat → List Nat → List Nat × Nat
  | 0, _, serial, acc => (acc, serial)
  | fuel + 1, i, serial, acc =>
    if i < W then
      let srcToHash := (List.range M).map (fun j => rawWords.getD (i + j) 0)
      let stamped := sha256_stampSerialNumber M (srcToHash ++ [0]) serial
      conditionLoop M W rawWords fuel (i + M) stamped.2 (acc ++ sha256_generateHash stamped.1)
    else (acc, serial)

/-- The health-test sampling loop of rcv_rnd_bytes: feed buffTRndOut[0],
..., buffTRndOut[TRND_OUT_BUFFSIZE-1] to rct_sample and apt_sample. -/
def sampleLoop (numConsecFailThreshold N : Nat) (bytes : List Nat)
    (rct0 : RctState) (apt0 : AptState) : RctState × AptState :=
  (List.range N).foldl
    (fun st i =>
      (rct_sample numConsecFailThreshold st.1 (bytes.getD i 0),
       apt_sample numConsecFailThreshold st.2 (bytes.getD i 0)))
    (rct0, apt0)

/-- rcv_rnd_bytes: one refill cycle.  The transport round trip
(snd_rcv_usb_data with the `rnd_command`) is abstracted by the `transport`
oracle: `Except.error e` is a non-zero snd_rcv_usb_data result `e`, and
`Except.ok rawWords` is SUCCESS with buffRndIn holding `rawWords` (the
uint32_t view of the RND_IN_BUFFSIZE raw bytes).  Mirrors the source order
exactly: early -EPERM when not ready or shutting down; on transport success
restart both health tests (statusByte untouched), run the conditioning loop
into buffTRndOut, reset curTrngOutIdx to 0, sample every conditioned byte,
and only then check the two statusBytes, failing with -EPERM if either is
non-zero — the freshly conditioned block and the reset cursor remain
installed in that case. -/
def rcv_rnd_bytes (p : CoreParams) (s : DriverState)
    (transport : Except Int (List Nat)) : Int × DriverState :=
  if s.isEntropySrcRdy = false ∨ s.isShutDown = true then (-1, s)
  else
    let s0 := { s with isUsbOpPending := true }
    match transport with
    | Except.error e => (e, { s0 with isUsbOpPending := false })
    | Except.ok rawWords =>
      let rct1 := rct_restart s0.rct
      let apt1 := apt_restart s0.apt
      let cond := conditionLoop p.MIN_INPUT_NUM_WORDS (p.RND_IN_BUFFSIZE / WORD_SIZE_BYTES)
        rawWords (p.RND_IN_BUFFSIZE / WORD_SIZE_BYTES) 0 s0.blockSerialNumber []
      let outBytes := wordsToBytesLE cond.1
      let tests := sampleLoop p.numConsecFailThreshold p.TRND_OUT_BUFFSIZE outBytes rct1 apt1
      let retval : Int := if ¬ tests.1.statusByte = 0 then -1
        else if ¬ tests.2.statusByte = 0 then -1 else 0
      (retval,
       { s0 with buffTRndOut := outBytes, curTrngOutIdx := 0, rct := tests.1, apt := tests.2,
                 blockSerialNumber := cond.2, isUsbOpPending := false })

/-- get_entropy_bytes: refill through rcv_rnd_bytes only when the cursor has
reached the end of the conditioned block, otherwise report SUCCESS and leave
everything untouched.  `oracle k` is the transport outcome of the `k`-th
refill of the run; the returned index points past the outcomes consumed. -/
def get_entropy_bytes (p : CoreParams) (oracle : Nat → Except Int (List Nat)) (k : Nat)
    (s : DriverState) : Int × DriverState × Nat :=
  if p.TRND_OUT_BUFFSIZE ≤ s.curTrngOutIdx then
    let r := rcv_rnd_bytes p s (oracle k)
    (r.1, r.2, k + 1)
  else (0, s, k)

/-- The `act` computation of device_read's serving step: the bytes left in
the conditioned block, capped by the bytes still requested
(`act = TRND_OUT_BUFFSIZE - curTrngOutIdx; if (act > length - total)
act = length - total`). -/
def device_read_act (TRND_OUT_BUFFSIZE curTrngOutIdx length total : Nat) : Nat :=
  let act := TRND_OUT_BUFFSIZE - curTrngOutIdx
  if length - total < act then length - total else act

/-- The do-while loop of device_read.  Each iteration calls
get_entropy_bytes; on SUCCESS it copies `act` bytes starting at the cursor
to the caller (`acc` models the user buffer; copy_to_user is modelled as
always succeeding), advances the cursor and `total`, sets `retval = total`,
and repeats while `total < length`; on a refill error it breaks, returning
that error code whatever `total` already is.  `fuel` bounds the iteration
count (every successful iteration with `total < length` serves at least one
byte when TRND_OUT_BUFFSIZE > 0, so `length + 1` iterations always
suffice). -/
def device_read_go (p : CoreParams) (oracle : Nat → Except Int (List Nat)) :
    Nat → DriverState → Nat → List Nat → Nat → Nat → Int × DriverState × Nat × List Nat
  | 0, s, k, acc, _, total => ((total : Int), s, k, acc)
  | fuel + 1, s, k, acc, length, total =>
    let r := get_entropy_bytes p oracle k s
    if r.1 = 0 then
      let act := device_read_act p.TRND_OUT_BUFFSIZE r.2.1.curTrngOutIdx length total
      let acc2 := acc ++ (r.2.1.buffTRndOut.drop r.2.1.curTrngOutIdx).take act
      let s2 := { r.2.1 with curTrngOutIdx := r.2.1.curTrngOutIdx + act }
      if total + act < length then
        device_read_go p oracle fuel s2 r.2.2 acc2 length (total + act)
      else ((total + act : Nat), s2, r.2.2, acc2)
    else (r.1, r.2.1, r.2.2, acc)

/-- device_read: reject with -ENODATA when the source is not ready or the
module is shutting down; otherwise set isDeviceOpPending, run the serving
loop for a request of `length` bytes, and clear isDeviceOpPending on exit.
Returns the C return value, the final state, and the bytes copied to the
caller.  (The mutex and the copy_to_user -EFAULT path are not modelled.) -/
def device_read (p : CoreParams) (oracle : Nat → Except Int (List Nat))
    (s : DriverState) (length : Nat) : Int × DriverState × List Nat :=
  if s.isEntropySrcRdy = false ∨ s.isShutDown = true then (-61, s, [])
  else
    let run := device_read_go p oracle (length + 1) { s with isDeviceOpPending := true } 0 [] length 0
    (run.1, { run.2.1 with isDeviceOpPending := false }, run.2.2.2)

/-! ## Concrete instantiations used by witnesses and counterexamples.
    The header constants are free parameters of the embedding, so small
    values are chosen to keep kernel evaluation cheap: one raw word per
    refill (one 17- resp. 2-word hash sub-block), a 32-byte conditioned
    block, and a consecutive-failure threshold large enough that a clean
    refill can never latch within one block. -/

/-- Small parameter set: RND_IN_BUFFSIZE = 4 bytes (one raw word),
MIN_INPUT_NUM_WORDS = 1, so one sub-block whose 8-word digest fills a
TRND_OUT_BUFFSIZE of 32 bytes exactly. -/
def smallParams : CoreParams :=
  { RND_IN_BUFFSIZE := 4, TRND_OUT_BUFFSIZE := 32, MIN_INPUT_NUM_WORDS := 1,
    numConsecFailThreshold := 1000000 }

/-- A ready driver state whose conditioned block is fully consumed
(curTrngOutIdx = TRND_OUT_BUFFSIZE), with freshly initialized health tests. -/
def exhaustedState : DriverState :=
  { isEntropySrcRdy := true, isShutDown := false, isDeviceOpPending := false,
    isUsbOpPending := false, curTrngOutIdx := 32, buffTRndOut := List.replicate 32 0,
    rct := rct_initialize, apt := apt_initialize, blockSerialNumber := 413145 }

/-- A ready driver state with 5 of 32 conditioned bytes consumed. -/
def midState : DriverState := { exhaustedState with curTrngOutIdx := 5 }

/-- `exhaustedState` after the Repetition Count Test has latched
(statusByte = 1, its failure signature). -/
def latchedState : DriverState :=
  { exhaustedState with rct := { rct_initialize with statusByte := 1 } }

/-- Transport oracle whose first exchange succeeds with one raw word and
whose later exchanges time out. -/
def refillOnceOracle : Nat → Except Int (List Nat) :=
  fun k => if k = 0 then Except.ok [12345] else Except.error (-110)

/-- Transport oracle that always times out. -/
def failOracle : Nat → Except Int (List Nat) := fun _ => Except.error (-110)

/-- An initialized RCT state one repetition short of the maxRepetitions
trigger and one failure short of a threshold of 3. -/
def rctW : RctState :=
  { isInitialized := true, lastSample := 7, curRepetitions := 4, failureWindow := 0,
    failureCount := 2, statusByte := 0, signature := 1, maxRepetitions := 5 }

/-- An initialized APT state whose next matching sample exceeds the cutoff. -/
def aptW : AptState :=
  { isInitialized := true, firstSample := 7, curRepetitions := 5, curSamples := 10,
    windowSize := 64, cutoffValue := 5, cycleFailures := 0, statusByte := 0, signature := 2 }

/-- apt_initialize fed eight identical bytes with threshold 3: samples 7 and
8 both push curRepetitions past the cutoff. -/
def aptRunC3 : AptState :=
  List.foldl (fun st v => apt_sample 3 st v) apt_initialize [7, 7, 7, 7, 7, 7, 7, 7]

/-- One inbound transfer for a 3-byte expected read (sizeRcv = 2 payload
bytes plus the trailing status byte): two per-packet bytes 9, 9 are skipped,
payload [1, 2] arrives, and the trailing status byte is 7 (non-zero). -/
def badStatusReads : List TransferEvent := [TransferEvent.ok [9, 9, 1, 2, 7] 0]

/-- A retry-loop attempt whose 3-byte command write completes and whose read
yields the non-zero trailing status byte. -/
def badStatusAttempt : UsbAttempt := UsbAttempt.writeResult 0 3 badStatusReads

/-- A full retry budget of three such attempts. -/
def badStatusAttempts : List UsbAttempt := [badStatusAttempt, badStatusAttempt, badStatusAttempt]

/-- An 11-word stand-in for the testSeq1 vector of the missing header (the
comparison-width finding below holds for every choice of vector). -/
def selfTestVec : List Nat := List.replicate 11 1

/-- An expected-digest vector that agrees with the true digest of
`selfTestVec` in words 0 and 1 (bytes 0..7) but differs in word 7
(bytes 28..31). -/
def selfTestWrongExpt : List Nat :=
  (sha256_generateHash selfTestVec).set 7 ((sha256_generateHash selfTestVec).getD 7 0 + 1)

/-! ## Helper lemmas -/

/-- A fold preserves any invariant its step preserves. -/
theorem foldl_pres {α β : Type} (P : β → Prop) (f : β → α → β)
    (hstep : ∀ b a, P b → P (f b a)) :
    ∀ (l : List α) (b : β), P b → P (List.foldl f b l) := by
  intro l
  induction l with
  | nil => intro b hb; simpa using hb
  | cons a rest ih => intro b hb; simpa using ih (f b a) (hstep b a hb)

/-- rct_sample never changes an already non-zero statusByte: the only write
to statusByte is guarded by `statusByte == 0`. -/
theorem rct_sample_statusByte_sticky (t : Nat) (s : RctState) (v : Nat)
    (h : ¬ s.statusByte = 0) : (rct_sample t s v).statusByte = s.statusByte := by
  unfold rct_sample
  split_ifs <;> simp_all

/-- The sampling loop of a refill cycle cannot clear a latched RCT
statusByte. -/
theorem sampleLoop_rct_statusByte (t N : Nat) (bytes : List Nat) (rct0 : RctState)
    (apt0 : AptState) (h : ¬ rct0.statusByte = 0) :
    ¬ (sampleLoop t N bytes rct0 apt0).1.statusByte = 0 := by
  unfold sampleLoop
  exact foldl_pres (fun st : RctState × AptState => ¬ st.1.statusByte = 0) _
    (fun b a hb => by
      show ¬ (rct_sample t b.1 (bytes.getD a 0)).statusByte = 0
      rw [rct_sample_statusByte_sticky t b.1 (bytes.getD a 0) hb]
      exact hb)
    (List.range N) (rct0, apt0) h

/-- Setting the element just past a list overwrites an appended singleton. -/
theorem set_append_last : ∀ (l : List Nat) (x y : Nat), (l ++ [x]).set l.length y = l ++ [y]
  | [], _, _ => rfl
  | a :: l, x, y => congrArg (List.cons a) (set_append_last l x y)

/-- Closed form of the serial counter: after `n` stamps it holds
`(seed + n) mod 2^32`. -/
theorem serialAfterStamps_closed (seed : Nat) :
    ∀ n, serialAfterStamps seed n = (seed + n) % 2 ^ 32 := by
  intro n
  induction n with
  | zero => simp [serialAfterStamps, sha256_initializeSerialNumber]
  | succ n ih =>
    show (sha256_stampSerialNumber 0 [] (serialAfterStamps seed n)).2 = _
    rw [ih]
    unfold sha256_stampSerialNumber
    omega

/-- snd_rcv_usb_data can only ever report SUCCESS, -EPERM (shutdown
observed) or -ETIMEDOUT (budget exhausted), whatever the carried retval:
the -EFAULT marker set on a non-zero trailing status byte is always
overwritten before the function returns. -/
theorem snd_rcv_result_cases (size usbBufferSize sizeSnd sizeRcv opTimeoutSecs : Nat) :
    ∀ (attempts : List UsbAttempt) (rv : Int),
      snd_rcv_usb_data size usbBufferSize sizeSnd sizeRcv opTimeoutSecs attempts rv = 0 ∨
      snd_rcv_usb_data size usbBufferSize sizeSnd sizeRcv opTimeoutSecs attempts rv = -1 ∨
      snd_rcv_usb_data size usbBufferSize sizeSnd sizeRcv opTimeoutSecs attempts rv = -110 := by
  intro attempts
  induction attempts with
  | nil => intro rv; right; right; rfl
  | cons a rest ih =>
    intro rv
    cases a with
    | shutdownSeen => right; left; rfl
    | writeResult r cnt reads =>
      unfold snd_rcv_usb_data
      by_cases hw : r = 0 ∧ cnt = sizeSnd
      · rw [if_pos hw]
        rcases hchip : chip_read_data size usbBufferSize (sizeRcv + 1) opTimeoutSecs reads [] with e | rcv
        · simp only [hchip]
          exact ih e
        · simp only [hchip]
          by_cases hst : ¬ rcv.getD sizeRcv 0 = 0
          · rw [if_pos hst]; exact ih (-14)
          · rw [if_neg hst]; left; rfl
      · rw [if_neg hw]; exact ih r

/-! ## Claim theorems -/

/-- Claim C9 (confirmed): for every read-loop iteration the take step never
advances the OutputCursor past TRND_OUT_BUFFSIZE (the cursor stays in
[0, TRND_OUT_BUFFSIZE]), and whenever the cursor has not yet reached the end
of the block, get_entropy_bytes returns SUCCESS without triggering a refill
and without changing the state or consuming a transport exchange. -/
theorem claim_C9_cursor_bound_and_idempotence (p : CoreParams)
    (oracle : Nat → Except Int (List Nat)) (k : Nat) (s : DriverState)
    (length total : Nat) (h : s.curTrngOutIdx ≤ p.TRND_OUT_BUFFSIZE) :
    s.curTrngOutIdx + device_read_act p.TRND_OUT_BUFFSIZE s.curTrngOutIdx length total ≤
      p.TRND_OUT_BUFFSIZE
    ∧ (s.curTrngOutIdx < p.TRND_OUT_BUFFSIZE →
        get_entropy_bytes p oracle k s = (0, s, k)) := by
  constructor
  · unfold device_read_act
    dsimp only
    split_ifs <;> omega
  · intro hlt
    unfold get_entropy_bytes
    rw [if_neg (by omega)]

/-- Witness for claim C9 at a concrete mid-block state. -/
theorem claim_C9_witness :
    midState.curTrngOutIdx ≤ smallParams.TRND_OUT_BUFFSIZE ∧
    (midState.curTrngOutIdx +
        device_read_act smallParams.TRND_OUT_BUFFSIZE midState.curTrngOutIdx 40 0 ≤
      smallParams.TRND_OUT_BUFFSIZE
    ∧ (midState.curTrngOutIdx < smallParams.TRND_OUT_BUFFSIZE →
        get_entropy_bytes smallParams refillOnceOracle 0 midState = (0, midState, 0))) :=
  ⟨by decide,
   claim_C9_cursor_bound_and_idempotence smallParams refillOnceOracle 0 midState 40 0 (by decide)⟩

/-- Claim C6 (confirmed): in rct_sample, for every sample after the first,
a sample equal to lastSample increments curRepetitions; when curRepetitions
reaches maxRepetitions (5) it is reset to 1 and failureCount is incremented,
latching statusByte (only if not already latched) when failureCount reaches
the consecutive-failure threshold; a differing sample resets lastSample and
curRepetitions to 1 without clearing failureCount or a prior latch. -/
theorem claim_C6_rct_step (t : Nat) (s : RctState) (v : Nat)
    (hinit : s.isInitialized = true) (hmax : s.maxRepetitions = 5) :
    (s.lastSample = v → s.curRepetitions + 1 < 5 →
      rct_sample t s v = { s with curRepetitions := s.curRepetitions + 1 })
    ∧ (s.lastSample = v → 5 ≤ s.curRepetitions + 1 →
      rct_sample t s v =
        { s with curRepetitions := 1, failureCount := s.failureCount + 1,
                 statusByte :=
                   if t ≤ s.failureCount + 1 ∧ s.statusByte = 0 then s.signature
                   else s.statusByte })
    ∧ (¬ s.lastSample = v →
      rct_sample t s v = { s with lastSample := v, curRepetitions := 1 }) := by
  have hni : ¬ s.isInitialized = false := by simp [hinit]
  refine ⟨?_, ?_, ?_⟩
  · intro hv hlt
    unfold rct_sample
    rw [if_neg hni, if_pos hv, if_neg (by omega)]
  · intro hv hge
    unfold rct_sample
    rw [if_neg hni, if_pos hv, if_pos (by omega)]
    by_cases hth : t ≤ s.failureCount + 1
    · by_cases hsb : s.statusByte = 0
      · rw [if_pos hth, if_pos hsb, if_pos ⟨hth, hsb⟩]
      · rw [if_pos hth, if_neg hsb, if_neg (by tauto)]
    · rw [if_neg hth, if_neg (by tauto)]
  · intro hv
    unfold rct_sample
    rw [if_neg hni, if_neg hv]

/-- Witness for claim C6: an initialized RCT state at 4 repetitions and
failureCount 2 with threshold 3; the fifth identical sample resets the
repetition counter and latches. -/
theorem claim_C6_witness :
    (rctW.isInitialized = true ∧ rctW.maxRepetitions = 5) ∧
    (rctW.lastSample = 7 → 5 ≤ rctW.curRepetitions + 1 →
      rct_sample 3 rctW 7 =
        { rctW with curRepetitions := 1, failureCount := rctW.failureCount + 1,
                    statusByte :=
                      if 3 ≤ rctW.failureCount + 1 ∧ rctW.statusByte = 0 then rctW.signature
                      else rctW.statusByte }) :=
  ⟨⟨rfl, rfl⟩, (claim_C6_rct_step 3 rctW 7 rfl rfl).2.1⟩

/-- Claim C3 (corrected): in apt_sample, every sample equal to the window's
firstSample increments curRepetitions and never re-picks firstSample; when
the incremented curRepetitions EXCEEDS cutoffValue, cycleFailures is
incremented WITHOUT resetting the repetition counter, and statusByte is
latched (only if not already latched) once cycleFailures reaches the
consecutive-failure threshold; when the incremented curRepetitions does NOT
exceed the cutoff, apt_restart_cycle resets cycleFailures to 0 (the source
attaches the `else apt_restart_cycle()` to the inner cutoff comparison, not
to the firstSample comparison as the claim describes). -/
theorem claim_C3_apt_step_amended (t : Nat) (s : AptState) (v : Nat)
    (hinit : s.isInitialized = true) (hfs : s.firstSample = v) :
    (apt_sample t s v).curRepetitions = s.curRepetitions + 1
    ∧ (apt_sample t s v).firstSample = s.firstSample
    ∧ (s.cutoffValue < s.curRepetitions + 1 →
        (apt_sample t s v).cycleFailures = s.cycleFailures + 1 ∧
        (apt_sample t s v).statusByte =
          (if t ≤ s.cycleFailures + 1 ∧ s.statusByte = 0 then s.signature else s.statusByte))
    ∧ (s.curRepetitions + 1 ≤ s.cutoffValue →
        (apt_sample t s v).cycleFailures = 0 ∧ (apt_sample t s v).statusByte = s.statusByte) := by
  have hni : ¬ s.isInitialized = false := by simp [hinit]
  have hkey : ∀ s1 : AptState, s1.firstSample = s.firstSample →
      s1.curRepetitions = s.curRepetitions → s1.cutoffValue = s.cutoffValue →
      s1.cycleFailures = s.cycleFailures → s1.statusByte = s.statusByte →
      s1.signature = s.signature →
      (let s2 := if s1.firstSample = v then
          if s1.cutoffValue < s1.curRepetitions + 1 then
            if t ≤ s1.cycleFailures + 1 then
              if s1.statusByte = 0 then
                { s1 with curRepetitions := s1.curRepetitions + 1,
                          cycleFailures := s1.cycleFailures + 1, statusByte := s1.signature }
              else
                { s1 with curRepetitions := s1.curRepetitions + 1,
                          cycleFailures := s1.cycleFailures + 1 }
            else
              { s1 with curRepetitions := s1.curRepetitions + 1,
                        cycleFailures := s1.cycleFailures + 1 }
          else apt_restart_cycle { s1 with curRepetitions := s1.curRepetitions + 1 }
        else s1
       s2.curRepetitions = s.curRepetitions + 1
       ∧ s2.firstSample = s.firstSample
       ∧ (s.cutoffValue < s.curRepetitions + 1 →
           s2.cycleFailures = s.cycleFailures + 1 ∧
           s2.statusByte =
             (if t ≤ s.cycleFailures + 1 ∧ s.statusByte = 0 then s.signature else s.statusByte))
       ∧ (s.curRepetitions + 1 ≤ s.cutoffValue →
           s2.cycleFailures = 0 ∧ s2.statusByte = s.statusByte)) := by
    intro s1 e1 e2 e3 e4 e5 e6
    rw [if_pos (by rw [e1]; exact hfs)]
    by_cases hc : s.cutoffValue < s.curRepetitions + 1
    · rw [if_pos (by rw [e2, e3]; exact hc)]
      by_cases hth : t ≤ s.cycleFailures + 1
      · rw [if_pos (by rw [e4]; exact hth)]
        by_cases hsb : s.statusByte = 0
        · rw [if_pos (by rw [e5]; exact hsb)]
          refine ⟨by simp [e2], by simp [e1], fun _ => ⟨by simp [e4], ?_⟩,
                  fun hle => absurd hc (by omega)⟩
          simp [e6, if_pos (And.intro hth hsb)]
        · rw [if_neg (by rw [e5]; exact hsb)]
          refine ⟨by simp [e2], by simp [e1], fun _ => ⟨by simp [e4], ?_⟩,
                  fun hle => absurd hc (by omega)⟩
          simp [e5, if_neg (fun hand : t ≤ s.cycleFailures + 1 ∧ s.statusByte = 0 => hsb hand.2)]
      · rw [if_neg (by rw [e4]; exact hth)]
        refine ⟨by simp [e2], by simp [e1], fun _ => ⟨by simp [e4], ?_⟩,
                fun hle => absurd hc (by omega)⟩
        simp [e5, if_neg (fun hand : t ≤ s.cycleFailures + 1 ∧ s.statusByte = 0 => hth hand.1)]
    · rw [if_neg (by rw [e2, e3]; exact hc)]
      exact ⟨by simp [apt_restart_cycle, e2], by simp [apt_restart_cycle, e1],
             fun hgt => absurd hgt hc, fun _ => ⟨rfl, by simp [apt_restart_cycle, e5]⟩⟩
  unfold apt_sample
  rw [if_neg hni]
  dsimp only
  by_cases hw : s.windowSize ≤ s.curSamples + 1
  · rw [if_pos hw]
    exact hkey { s with curSamples := s.curSamples + 1, isInitialized := false }
      rfl rfl rfl rfl rfl rfl
  · rw [if_neg hw]
    exact hkey { s with curSamples := s.curSamples + 1 } rfl rfl rfl rfl rfl rfl

/-- Witness for claim C3: an initialized APT state at 5 repetitions with
threshold 3; the matching sample pushes curRepetitions to 6 (> cutoff 5),
incrementing cycleFailures while leaving the repetition counter unreset. -/
theorem claim_C3_witness :
    (aptW.isInitialized = true ∧ aptW.firstSample = 7) ∧
    ((apt_sample 3 aptW 7).curRepetitions = aptW.curRepetitions + 1
    ∧ (aptW.cutoffValue < aptW.curRepetitions + 1 →
        (apt_sample 3 aptW 7).cycleFailures = aptW.cycleFailures + 1 ∧
        (apt_sample 3 aptW 7).statusByte =
          (if 3 ≤ aptW.cycleFailures + 1 ∧ aptW.statusByte = 0 then aptW.signature
           else aptW.statusByte))) :=
  ⟨⟨rfl, rfl⟩,
   ⟨(claim_C3_apt_step_amended 3 aptW 7 rfl rfl).1,
    (claim_C3_apt_step_amended 3 aptW 7 rfl rfl).2.2.1⟩⟩

/-- Counterexample for claim C3 as stated: starting from apt_initialize and
feeding eight identical bytes with threshold 3, the repetition counter ends
at 7 — strictly above the cutoff 5 — having exceeded the cutoff on two
consecutive samples (cycleFailures = 2): had the repetition counter been
reset "for a fresh sub-cycle" whenever it exceeded the cutoff, it could
never exceed the cutoff by two. -/
theorem claim_C3_counterexample :
    aptRunC3.cutoffValue = 5 ∧ aptRunC3.curRepetitions = 7 ∧ aptRunC3.cycleFailures = 2 := by
  decide

/-- Claim C10 (corrected): in chip_read_data, a transfer of 2 or fewer bytes
contributes nothing to the response accumulator; payload is extracted only
from transfers of 3 or more bytes; and at every offset that is a multiple of
the bulk-in packet size the extraction loop discards TWO bytes — the framing
byte at that offset and the byte immediately following it — because the
source's `i++; continue;` combines with the for-loop increment. -/
theorem claim_C10_two_byte_strip_amended (size transferred length fuel i : Nat)
    (data buff : List Nat) (hi : i % size = 0) (hlt : i < transferred) :
    chip_extract_go size data transferred length (fuel + 1) i buff =
      chip_extract_go size data transferred length fuel (i + 2) buff
    ∧ (∀ (d2 b2 : List Nat) (l2 : Nat), d2.length ≤ 2 → chip_read_step size b2 l2 d2 = b2)
    ∧ (∀ (d3 b3 : List Nat) (l3 : Nat), 2 < d3.length →
        chip_read_step size b3 l3 d3 = chip_extract_go size d3 d3.length l3 d3.length 0 b3) := by
  refine ⟨?_, ?_, ?_⟩
  · show (if i < transferred then
        if i % size = 0 then chip_extract_go size data transferred length fuel (i + 2) buff
        else
          let buff2 := buff ++ [data.getD i 0]
          if length ≤ buff2.length then buff2
          else chip_extract_go size data transferred length fuel (i + 1) buff2
      else buff) = chip_extract_go size data transferred length fuel (i + 2) buff
    rw [if_pos hlt, if_pos hi]
  · intro d2 b2 l2 h
    unfold chip_read_step
    rw [if_neg (by omega)]
  · intro d3 b3 l3 h
    unfold chip_read_step
    rw [if_pos h]

/-- Witness for claim C10: the first four-byte transfer of a 64-byte-packet
channel; offset 0 is a packet boundary, and the loop jumps straight to
offset 2. -/
theorem claim_C10_witness :
    ((0 : Nat) % 64 = 0 ∧ (0 : Nat) < 4) ∧
    chip_extract_go 64 [9, 20, 30, 40] 4 100 4 0 [] =
      chip_extract_go 64 [9, 20, 30, 40] 4 100 3 2 [] :=
  ⟨⟨rfl, by decide⟩,
   (claim_C10_two_byte_strip_amended 64 4 100 3 0 [9, 20, 30, 40] [] rfl (by decide)).1⟩

/-- Counterexample for claim C10 as stated: on the transfer [9, 20, 30, 40]
with a 64-byte packet size, the code appends [30, 40] — dropping byte 20,
which follows the framing byte 9 — while stripping exactly one framing byte
per packet, as the claim describes, would append [20, 30, 40]. -/
theorem claim_C10_counterexample :
    chip_read_step 64 [] 100 [9, 20, 30, 40] = [30, 40]
    ∧ chip_read_step_oneByteStrip 64 [] 100 [9, 20, 30, 40] = [20, 30, 40]
    ∧ ¬ ([30, 40] : List Nat) = [20, 30, 40] := by
  exact ⟨rfl, rfl, by decide⟩

/-- Claim C4 (corrected): in snd_rcv_usb_data, after the expected payload one
additional trailing status byte is read (`chip_read_data` is invoked for
`sizeRcv + 1` bytes), and a non-zero value of that byte marks the attempt
with the internal -EFAULT code and RETRIES the whole exchange instead of
surfacing: the function's result is always SUCCESS, -EPERM (shutdown) or
-ETIMEDOUT (budget exhausted), never -EFAULT, so a persistently non-zero
status byte is reported to the caller as a transport timeout. -/
theorem claim_C4_status_byte_retried_amended
    (size usbBufferSize sizeSnd sizeRcv opTimeoutSecs : Nat)
    (reads : List TransferEvent) (rcv : List Nat) (rest : List UsbAttempt) (rv : Int)
    (hchip : chip_read_data size usbBufferSize (sizeRcv + 1) opTimeoutSecs reads [] =
      Except.ok rcv)
    (hst : ¬ rcv.getD sizeRcv 0 = 0) :
    snd_rcv_usb_data size usbBufferSize sizeSnd sizeRcv opTimeoutSecs
        (UsbAttempt.writeResult 0 sizeSnd reads :: rest) rv =
      snd_rcv_usb_data size usbBufferSize sizeSnd sizeRcv opTimeoutSecs rest (-14)
    ∧ ∀ (attempts : List UsbAttempt) (rv2 : Int),
        snd_rcv_usb_data size usbBufferSize sizeSnd sizeRcv opTimeoutSecs attempts rv2 = 0 ∨
        snd_rcv_usb_data size usbBufferSize sizeSnd sizeRcv opTimeoutSecs attempts rv2 = -1 ∨
        snd_rcv_usb_data size usbBufferSize sizeSnd sizeRcv opTimeoutSecs attempts rv2 = -110 := by
  constructor
  · simp only [snd_rcv_usb_data, hchip]
    rw [if_pos ⟨trivial, trivial⟩, if_pos hst]
  · exact snd_rcv_result_cases size usbBufferSize sizeSnd sizeRcv opTimeoutSecs

/-- Witness for claim C4: a single attempt whose transfer [9, 9, 1, 2, 7]
de-frames to the payload [1, 2] plus the non-zero trailing status byte 7;
the attempt is abandoned with the -EFAULT marker and retried. -/
theorem claim_C4_witness :
    (chip_read_data 64 1000 (2 + 1) 10 badStatusReads [] = Except.ok [1, 2, 7] ∧
      ¬ (([1, 2, 7] : List Nat).getD 2 0 = 0)) ∧
    snd_rcv_usb_data 64 1000 3 2 10 (UsbAttempt.writeResult 0 3 badStatusReads :: []) 0 =
      snd_rcv_usb_data 64 1000 3 2 10 [] (-14) :=
  ⟨⟨rfl, by decide⟩,
   (claim_C4_status_byte_retried_amended 64 1000 3 2 10 badStatusReads [1, 2, 7] [] 0
     rfl (by decide)).1⟩

/-- Counterexample for claim C4 as stated: a retry budget of three attempts,
each delivering the full payload with the non-zero trailing status byte 7,
makes snd_rcv_usb_data return -ETIMEDOUT (-110), not the -EFAULT (-14) the
claim says is reported to the caller. -/
theorem claim_C4_counterexample :
    snd_rcv_usb_data 64 1000 3 2 10 badStatusAttempts 0 = -110
    ∧ ¬ ((-110 : Int) = -14) := by
  exact ⟨rfl, by decide⟩

/-- Claim C5 (corrected): whenever get_entropy_bytes fails at the current
iteration of device_read's serving loop, the loop returns exactly that error
code and the post-refill state, whatever `total` bytes (`acc`) have already
been copied to the caller: the partial count is discarded, not returned. -/
theorem claim_C5_refill_error_discards_partial (p : CoreParams)
    (oracle : Nat → Except Int (List Nat)) (fuel k total length : Nat)
    (s : DriverState) (acc : List Nat)
    (herr : ¬ (get_entropy_bytes p oracle k s).1 = 0) :
    device_read_go p oracle (fuel + 1) s k acc length total =
      ((get_entropy_bytes p oracle k s).1, (get_entropy_bytes p oracle k s).2.1,
       (get_entropy_bytes p oracle k s).2.2, acc) := by
  show (let r := get_entropy_bytes p oracle k s
    if r.1 = 0 then
      let act := device_read_act p.TRND_OUT_BUFFSIZE r.2.1.curTrngOutIdx length total
      let acc2 := acc ++ (r.2.1.buffTRndOut.drop r.2.1.curTrngOutIdx).take act
      let s2 := { r.2.1 with curTrngOutIdx := r.2.1.curTrngOutIdx + act }
      if total + act < length then
        device_read_go p oracle fuel s2 r.2.2 acc2 length (total + act)
      else ((total + act : Nat), s2, r.2.2, acc2)
    else (r.1, r.2.1, r.2.2, acc)) = _
  rw [if_neg herr]

/-- Witness for claim C5: with the buffer exhausted, a timed-out refill and
3 bytes already copied, the loop returns the -ETIMEDOUT error, dropping the
partial count. -/
theorem claim_C5_witness :
    (¬ (get_entropy_bytes smallParams failOracle 0 exhaustedState).1 = 0) ∧
    device_read_go smallParams failOracle 3 exhaustedState 0 [1, 2, 3] 40 3 =
      ((get_entropy_bytes smallParams failOracle 0 exhaustedState).1,
       (get_entropy_bytes smallParams failOracle 0 exhaustedState).2.1,
       (get_entropy_bytes smallParams failOracle 0 exhaustedState).2.2, [1, 2, 3]) :=
  ⟨by decide,
   claim_C5_refill_error_discards_partial smallParams failOracle 2 0 3 40 exhaustedState
     [1, 2, 3] (by decide)⟩

set_option maxRecDepth 1000000 in
/-- Counterexample for claim C5 as stated: requesting 40 bytes from an
exhausted buffer, the first refill succeeds and serves the whole 32-byte
conditioned block, then the second refill times out; device_read returns the
error code -110, not the count 32 of bytes already copied to the caller. -/
theorem claim_C5_counterexample :
    (device_read smallParams refillOnceOracle exhaustedState 40).1 = -110
    ∧ (device_read smallParams refillOnceOracle exhaustedState 40).2.2.length = 32 := by
  decide

/-- Claim C7 (corrected): every stamped sub-block carries the current
SerialCounter in its last word (index MIN_INPUT_NUM_WORDS, just past the raw
words), after which the counter is exactly one larger modulo 2^32; the
counter is never reset (`serialAfterStamps` enumerates every write the
source performs); and any two sub-blocks whose indices differ by less than
2^32 have different hash inputs even when their raw words coincide. -/
theorem claim_C7_serial_stamp_amended (M seed i j : Nat) (raw : List Nat)
    (hlen : raw.length = M) (hij : i < j) (hspan : j - i < 2 ^ 32) :
    subBlockHashInput M seed i raw = raw ++ [serialAfterStamps seed i]
    ∧ (sha256_stampSerialNumber M (raw ++ [0]) (serialAfterStamps seed i)).2 =
        (serialAfterStamps seed i + 1) % 2 ^ 32
    ∧ serialAfterStamps seed (i + 1) = (serialAfterStamps seed i + 1) % 2 ^ 32
    ∧ ¬ subBlockHashInput M seed i raw = subBlockHashInput M seed j raw := by
  have hstamp : ∀ n : Nat, subBlockHashInput M seed n raw = raw ++ [serialAfterStamps seed n] := by
    intro n
    unfold subBlockHashInput sha256_stampSerialNumber
    dsimp only
    rw [← hlen, set_append_last]
  refine ⟨hstamp i, rfl, rfl, ?_⟩
  intro heq
  rw [hstamp i, hstamp j] at heq
  have hser : serialAfterStamps seed i = serialAfterStamps seed j := by simpa using heq
  rw [serialAfterStamps_closed seed i, serialAfterStamps_closed seed j] at hser
  have hmod : Nat.ModEq (2 ^ 32) i j :=
    Nat.ModEq.add_left_cancel' seed hser
  have hdvd : 2 ^ 32 ∣ j - i := (Nat.modEq_iff_dvd' (Nat.le_of_lt hij)).mp hmod
  have hle : 2 ^ 32 ≤ j - i := Nat.le_of_dvd (by omega) hdvd
  omega

/-- Witness for claim C7 at the source's seed 413145: sub-blocks 0 and 1
with the same raw word [5]. -/
theorem claim_C7_witness :
    (([5] : List Nat).length = 1 ∧ (0 : Nat) < 1 ∧ 1 - 0 < 2 ^ 32) ∧
    (subBlockHashInput 1 413145 0 [5] = [5] ++ [serialAfterStamps 413145 0]
    ∧ ¬ subBlockHashInput 1 413145 0 [5] = subBlockHashInput 1 413145 1 [5]) :=
  ⟨⟨rfl, by decide, by decide⟩,
   ⟨(claim_C7_serial_stamp_amended 1 413145 0 1 [5] rfl (by decide) (by decide)).1,
    (claim_C7_serial_stamp_amended 1 413145 0 1 [5] rfl (by decide) (by decide)).2.2.2⟩⟩

/-- Counterexample for claim C7 as stated: sub-blocks 0 and 2^32 are
distinct sub-blocks of the process lifetime, yet with the same raw word
their hash inputs are bit-identical, because the 32-bit counter has wrapped
all the way around. -/
theorem claim_C7_counterexample :
    ¬ (0 : Nat) = 2 ^ 32
    ∧ subBlockHashInput 1 413145 0 [5] = subBlockHashInput 1 413145 (2 ^ 32) [5] := by
  constructor
  · decide
  · unfold subBlockHashInput
    rw [serialAfterStamps_closed 413145 0, serialAfterStamps_closed 413145 (2 ^ 32)]
    norm_num

/-- Claim C1 (code bug): once the RCT statusByte is latched, every
subsequent rcv_rnd_bytes call with a successful transport does fail with the
health-test -EPERM (the restart of the counters never clears the latch) —
but the refill has already reset curTrngOutIdx to 0 and installed the
freshly conditioned block, so the very next get_entropy_bytes call returns
SUCCESS without any refill and device_read proceeds to serve up to
TRND_OUT_BUFFSIZE bytes of the block that was conditioned during the failed
cycle: conditioned bytes ARE still served after the latch. -/
theorem claim_C1_latched_block_still_served (p : CoreParams)
    (oracle : Nat → Except Int (List Nat)) (k : Nat) (s : DriverState) (raw : List Nat)
    (hrdy : s.isEntropySrcRdy = true) (hsd : s.isShutDown = false)
    (hlatch : ¬ s.rct.statusByte = 0) (hN : 0 < p.TRND_OUT_BUFFSIZE) :
    (rcv_rnd_bytes p s (Except.ok raw)).1 = -1
    ∧ (rcv_rnd_bytes p s (Except.ok raw)).2.curTrngOutIdx = 0
    ∧ get_entropy_bytes p oracle k (rcv_rnd_bytes p s (Except.ok raw)).2 =
        (0, (rcv_rnd_bytes p s (Except.ok raw)).2, k) := by
  have hguard : ¬ (s.isEntropySrcRdy = false ∨ s.isShutDown = true) := by simp [hrdy, hsd]
  have h1 : (rcv_rnd_bytes p s (Except.ok raw)).1 = -1 ∧
      (rcv_rnd_bytes p s (Except.ok raw)).2.curTrngOutIdx = 0 := by
    unfold rcv_rnd_bytes
    rw [if_neg hguard]
    dsimp only
    constructor
    · split
      · rfl
      · next hcond =>
        exact absurd (not_not.mp hcond) (sampleLoop_rct_statusByte _ _ _ _ _ hlatch)
    · rfl
  refine ⟨h1.1, h1.2, ?_⟩
  unfold get_entropy_bytes
  rw [if_neg (by rw [h1.2]; omega)]

/-- Witness for claim C1: the latched state with a one-word transport
payload; the refill fails with -EPERM yet resets the cursor, and the next
get_entropy_bytes succeeds without touching the transport. -/
theorem claim_C1_witness :
    (latchedState.isEntropySrcRdy = true ∧ latchedState.isShutDown = false ∧
      ¬ latchedState.rct.statusByte = 0 ∧ 0 < smallParams.TRND_OUT_BUFFSIZE) ∧
    ((rcv_rnd_bytes smallParams latchedState (Except.ok [5])).1 = -1
    ∧ (rcv_rnd_bytes smallParams latchedState (Except.ok [5])).2.curTrngOutIdx = 0
    ∧ get_entropy_bytes smallParams failOracle 0
        (rcv_rnd_bytes smallParams latchedState (Except.ok [5])).2 =
        (0, (rcv_rnd_bytes smallParams latchedState (Except.ok [5])).2, 0)) :=
  ⟨⟨rfl, rfl, by decide, by decide⟩,
   claim_C1_latched_block_still_served smallParams failOracle 0 latchedState [5]
     rfl rfl (by decide) (by decide)⟩

/-- Claim C2 (code bug): on a transport error rcv_rnd_bytes does leave the
conditioned buffer and the cursor exactly as they were while propagating the
error — but on a latched health-test failure it propagates -EPERM only
AFTER having overwritten buffTRndOut with the new conditioned block and
reset curTrngOutIdx to 0, so the refill is not atomic on that error path. -/
theorem claim_C2_latched_refill_not_atomic (p : CoreParams) (s : DriverState)
    (raw : List Nat) (e : Int)
    (hrdy : s.isEntropySrcRdy = true) (hsd : s.isShutDown = false)
    (hlatch : ¬ s.rct.statusByte = 0) (hidx : 0 < s.curTrngOutIdx) :
    (rcv_rnd_bytes p s (Except.ok raw)).1 = -1
    ∧ ¬ (rcv_rnd_bytes p s (Except.ok raw)).2.curTrngOutIdx = s.curTrngOutIdx
    ∧ (rcv_rnd_bytes p s (Except.error e)).1 = e
    ∧ (rcv_rnd_bytes p s (Except.error e)).2.curTrngOutIdx = s.curTrngOutIdx
    ∧ (rcv_rnd_bytes p s (Except.error e)).2.buffTRndOut = s.buffTRndOut := by
  have hguard : ¬ (s.isEntropySrcRdy = false ∨ s.isShutDown = true) := by simp [hrdy, hsd]
  have h1 : (rcv_rnd_bytes p s (Except.ok raw)).1 = -1 ∧
      (rcv_rnd_bytes p s (Except.ok raw)).2.curTrngOutIdx = 0 := by
    unfold rcv_rnd_bytes
    rw [if_neg hguard]
    dsimp only
    constructor
    · split
      · rfl
      · next hcond =>
        exact absurd (not_not.mp hcond) (sampleLoop_rct_statusByte _ _ _ _ _ hlatch)
    · rfl
  have herr : (rcv_rnd_bytes p s (Except.error e)).1 = e ∧
      (rcv_rnd_bytes p s (Except.error e)).2.curTrngOutIdx = s.curTrngOutIdx ∧
      (rcv_rnd_bytes p s (Except.error e)).2.buffTRndOut = s.buffTRndOut := by
    unfold rcv_rnd_bytes
    rw [if_neg hguard]
    exact ⟨rfl, rfl, rfl⟩
  exact ⟨h1.1, by rw [h1.2]; omega, herr.1, herr.2.1, herr.2.2⟩

/-- Witness for claim C2: the latched, fully-consumed state (cursor 32): the
refill propagates -EPERM but moves the cursor to 0, while a transport error
leaves cursor and buffer untouched. -/
theorem claim_C2_witness :
    (latchedState.isEntropySrcRdy = true ∧ latchedState.isShutDown = false ∧
      ¬ latchedState.rct.statusByte = 0 ∧ 0 < latchedState.curTrngOutIdx) ∧
    ((rcv_rnd_bytes smallParams latchedState (Except.ok [5])).1 = -1
    ∧ ¬ (rcv_rnd_bytes smallParams latchedState (Except.ok [5])).2.curTrngOutIdx =
        latchedState.curTrngOutIdx
    ∧ (rcv_rnd_bytes smallParams latchedState (Except.error (-110))).1 = -110
    ∧ (rcv_rnd_bytes smallParams latchedState (Except.error (-110))).2.curTrngOutIdx =
        latchedState.curTrngOutIdx
    ∧ (rcv_rnd_bytes smallParams latchedState (Except.error (-110))).2.buffTRndOut =
        latchedState.buffTRndOut) :=
  ⟨⟨rfl, rfl, by decide, by decide⟩,
   claim_C2_latched_refill_not_atomic smallParams latchedState [5] (-110)
     rfl rfl (by decide) (by decide)⟩

set_option maxRecDepth 1000000 in
/-- Claim C8 (code bug): sha256_selfTest compares only the first 8 BYTES of
the digest (memcmp length 8 counts bytes, i.e. the first two of the eight
32-bit words): an expected vector that matches the true digest of the test
vector in words 0-1 but differs in word 7 (digest bytes 28..31) passes the
self-test, and the init_tlrandom gate lets initialization proceed — whereas
the claim says all 32 digest bytes are compared and any mismatch is fatal. -/
theorem claim_C8_selfTest_compares_8_bytes :
    sha256_selfTest selfTestVec selfTestWrongExpt = 0
    ∧ ¬ sha256_generateHash selfTestVec = selfTestWrongExpt
    ∧ init_tlrandom_selfTestGate selfTestVec selfTestWrongExpt = 0 := by
  decide
